import Mathlib

/-! A shallow embedding of `src/drqa/rnn_reader_RN_5.py`, the DrQA document
reader with a relation-network reasoning stage.  Tensors are modelled as
nested lists of rationals.  The sub-modules that the source imports from the
repository file `layers_RN` (which is absent from the sources) and the
behaviour of the tensor library are modelled from the specification; every
such definition carries a doc comment saying so. -/

abbrev Vec := List ℚ
abbrev Matrix2 := List (List ℚ)
abbrev Tensor3 := List (List (List ℚ))
abbrev Mask2 := List (List Bool)

/-- Elementwise sum of two vectors (tensor-library primitive). -/
def vecAdd (a b : Vec) : Vec := List.zipWith (fun x y => x + y) a b

/-- Dot product (tensor-library primitive). -/
def dot (a b : Vec) : ℚ := (List.zipWith (fun x y => x * y) a b).sum

/-- Matrix-vector product (tensor-library primitive). -/
def matVec (m : Matrix2) (v : Vec) : Vec := m.map (fun row => dot row v)

/-- Matrix-matrix product (tensor-library primitive). -/
def matMul (a b : Matrix2) : Matrix2 :=
  a.map (fun row => b.transpose.map (fun col => dot row col))

/-- `Tensor.transpose(1, 2)` on a three-dimensional tensor. -/
def transpose12 (t : Tensor3) : Tensor3 := t.map List.transpose

/-- `torch.bmm`, batched matrix multiplication. -/
def bmm (a b : Tensor3) : Tensor3 := List.zipWith matMul a b

/-- `torch.cat(-, 2)` for two tensors: concatenation along the channel axis. -/
def cat2two (a b : Tensor3) : Tensor3 :=
  List.zipWith (fun x y => List.zipWith (fun u v => u ++ v) x y) a b

/-- `torch.cat(list, 2)`: concatenation of a list of tensors along axis 2. -/
def cat2 : List Tensor3 → Tensor3
  | [] => []
  | t :: ts => ts.foldl cat2two t

/-- `torch.nn.functional.dropout`: during training every entry is multiplied
by the corresponding entry of the random mask and rescaled by `1 / (1 - p)`;
in inference mode (`training = false`) the input is returned unchanged. -/
def dropout3 (p : ℚ) (training : Bool) (mask : Tensor3) (x : Tensor3) : Tensor3 :=
  if training then
    List.zipWith (fun xm mm =>
      List.zipWith (fun xv mv =>
        List.zipWith (fun a m => a * m / (1 - p)) xv mv) xm mm) x mask
  else x

/-- `normalize_emb_` from the source: divide every row of the matrix by its
own L2 norm plus `1e-8`.  The L2 norm itself is computed by the tensor
library (`data.norm(2, 1)`) and is abstracted as the parameter `norm2`. -/
def normalize_emb_ (norm2 : Vec → ℚ) (data : Matrix2) : Matrix2 :=
  data.map (fun row => row.map (fun v => v / (norm2 row + 1 / 100000000)))

/-- A `torch.nn.Embedding` module: its weight matrix, the optional
`padding_idx` it was constructed with, and its `requires_grad` flag. -/
structure EmbTable where
  table : Matrix2
  paddingIdx : Option Nat
  requiresGrad : Bool
deriving DecidableEq

/-- Embedding lookup: `nn.Embedding.forward` maps every token index to the
corresponding row of the weight matrix. -/
def embLookup (t : Matrix2) (idx : List (List Nat)) : Tensor3 :=
  idx.map (fun row => row.map (fun i => t.getD i []))

/-- Row-by-row weight update, skipping the padding row.  Helper for
`EmbTable.gradStep`. -/
def gradRows (pidx : Option Nat) (lr : ℚ) (grads : Matrix2) : Nat → Matrix2 → Matrix2
  | _, [] => []
  | i, row :: rest =>
    (if pidx = some i then row
     else List.zipWith (fun w g => w - lr * g) row (grads.getD i (List.replicate row.length 0)))
      :: gradRows pidx lr grads (i + 1) rest

/-- Modelled from the spec: one optimizer step on an embedding table.  torch
gives the `padding_idx` row of an `nn.Embedding` a structurally zero
gradient, so the update `w := w - lr * g` leaves that row unchanged, and a
parameter with `requires_grad = False` is not updated at all ("Padding index
maps to a vector that receives no gradient update (structurally fixed)"). -/
def EmbTable.gradStep (e : EmbTable) (lr : ℚ) (grads : Matrix2) : EmbTable :=
  if e.requiresGrad then { e with table := gradRows e.paddingIdx lr grads 0 e.table }
  else e

/-- The configuration dictionary `opt`, with exactly the keys the source
reads.  `tunePartial` renders the source key `tune_partial`. -/
structure Opt where
  pretrained_words : Bool
  fix_embeddings : Bool
  tunePartial : Nat
  vocab_size : Nat
  embedding_dim : Nat
  pos : Bool
  pos_size : Nat
  pos_dim : Nat
  ner : Bool
  ner_size : Nat
  ner_dim : Nat
  use_qemb : Bool
  num_features : Nat
  hidden_size : Nat
  doc_layers : Nat
  question_layers : Nat
  dropout_rnn : ℚ
  dropout_rnn_output : Bool
  dropout_emb : ℚ
  concat_rnn_layers : Bool
  rnn_type : String
  rnn_padding : Bool
  num_objects : Nat
  reduction_ratio : Nat
  question_merge : String
deriving DecidableEq

/-- The keys of the `RNN_TYPES` class dictionary. -/
def RNN_TYPES : List String := ["lstm", "gru", "rnn"]

/-- `doc_input_size` as computed in `__init__` (word embedding plus manual
features plus the optional question-attended, POS and NER components). -/
def docInputSize (opt : Opt) : Nat :=
  opt.embedding_dim + opt.num_features
    + (if opt.use_qemb then opt.embedding_dim else 0)
    + (if opt.pos then opt.pos_dim else 0)
    + (if opt.ner then opt.ner_dim else 0)

/-- `doc_hidden_size` as computed in `__init__`: `2 * hidden_size`,
multiplied by `doc_layers` when `concat_rnn_layers` is set. -/
def docHiddenSize (opt : Opt) : Nat :=
  if opt.concat_rnn_layers then 2 * opt.hidden_size * opt.doc_layers
  else 2 * opt.hidden_size

/-- `question_hidden_size` as computed in `__init__`. -/
def questionHiddenSize (opt : Opt) : Nat :=
  if opt.concat_rnn_layers then 2 * opt.hidden_size * opt.question_layers
  else 2 * opt.hidden_size

/-- The sub-modules built from the absent repository file `layers_RN`.
Modelled from the spec: each is a function of its inputs that is
deterministic given the training-mode flag ("Toggling training mode to
inference mode ... must make the output deterministic"); the two 1-by-1
convolutions are kept as their weight and bias parameters so that the
position-wise projection itself can be stated. -/
structure Layers where
  qemb_match : Tensor3 → Tensor3 → Mask2 → Tensor3
  doc_rnn : Bool → Tensor3 → Mask2 → Tensor3
  question_rnn : Bool → Tensor3 → Mask2 → Tensor3
  docConvWeight : Matrix2
  docConvBias : Vec
  questionConvWeight : Matrix2
  questionConvBias : Vec
  doc_self_attn : Tensor3 → Mask2 → Tensor3
  self_attn : Tensor3 → Mask2 → Matrix2
  relationNet : Tensor3 → Matrix2 → Tensor3
  start_attn : Tensor3 → Tensor3 → Mask2 → Matrix2
  end_attn : Tensor3 → Tensor3 → Mask2 → Matrix2

/-- Modelled from the spec: `layers.Conv1by1DimReduce`, "a fixed learned
linear transform applied independently to every position" — the affine map
`W x + b` applied to the channel vector at every position of every batch
element, with no cross-position mixing. -/
def conv1by1 (w : Matrix2) (b : Vec) (x : Tensor3) : Tensor3 :=
  x.map (fun seq => seq.map (fun posv => vecAdd (matVec w posv) b))

/-- Modelled from the spec: `layers.uniform_weights` — a uniform
distribution over the non-padded positions of every sequence (zero weight on
padded positions). -/
def uniform_weights (x : Tensor3) (mask : Mask2) : Matrix2 :=
  List.zipWith (fun _seq m =>
    let c : ℚ := ((m.filter (fun b => b = false)).length : ℚ)
    m.map (fun b => if b then 0 else 1 / c)) x mask

/-- Modelled from the spec: `layers.weighted_avg` — for every batch element,
the sum of the position vectors scaled by the given weights. -/
def weighted_avg (x : Tensor3) (w : Matrix2) : Matrix2 :=
  List.zipWith (fun seq ws =>
    match List.zipWith (fun c v => v.map (fun a => c * a)) ws seq with
    | [] => []
    | h :: t => t.foldl vecAdd h) x w

/-- The ways `RnnDocReader.__init__` can raise: a failed `assert`, a
`KeyError` on the `RNN_TYPES` lookup, a `ZeroDivisionError` on
`doc_hidden_size // reduction_ratio`, or the explicit `NotImplementedError`
for an unrecognized `question_merge`. -/
inductive InitError where
  | embeddingMissing
  | fixTuneConflict
  | tunePartialTooBig
  | unknownRnnType
  | zeroReductionRatio
  | unsupportedQuestionMerge
deriving DecidableEq

/-- The word-embedding block of `__init__` (source lines 30-47): returns the
word table together with the optional `fixed_embedding` buffer, or the error
the block raises.  The `assert embedding is not None`, the
`assert opt['tune_partial'] == 0` under `fix_embeddings`, and the
`assert opt['tune_partial'] + 2 < embedding.size(0)` are all inside the
`if opt['pretrained_words']` branch. -/
def wordStage (norm2 : Vec → ℚ) (opt : Opt) (padIdx : Nat)
    (embedding : Option Matrix2) (normalizeEmb : Bool) (wordInit : Matrix2) :
    Except InitError (EmbTable × Option Matrix2) :=
  if opt.pretrained_words then
    match embedding with
    | none => Except.error InitError.embeddingMissing
    | some emb0 =>
      let emb := if normalizeEmb then normalize_emb_ norm2 emb0 else emb0
      if opt.fix_embeddings then
        if opt.tunePartial = 0 then
          Except.ok (⟨emb, some padIdx, false⟩, none)
        else Except.error InitError.fixTuneConflict
      else if 0 < opt.tunePartial then
        if opt.tunePartial + 2 < emb.length then
          Except.ok (⟨emb, some padIdx, true⟩, some (emb.drop (opt.tunePartial + 2)))
        else Except.error InitError.tunePartialTooBig
      else Except.ok (⟨emb, some padIdx, true⟩, none)
  else Except.ok (⟨wordInit, some padIdx, true⟩, none)

/-- The module state built by a successful `RnnDocReader.__init__`. -/
structure RnnDocReader where
  opt : Opt
  wordEmb : EmbTable
  posEmb : Option EmbTable
  nerEmb : Option EmbTable
  fixedEmbedding : Option Matrix2
  layers : Layers

/-- `RnnDocReader.__init__`.  `wordInit`, `posInit` and `nerInit` stand for
the random initial weights torch draws for freshly constructed embedding
tables, and `layers0` for the freshly constructed `layers_RN` sub-modules
(whose constructors are modelled, from the spec, as never failing).  Note
that the word embedding is built with `padding_idx` but `pos_embedding` and
`ner_embedding` are built without it (source lines 52-57). -/
def RnnDocReader.init (norm2 : Vec → ℚ) (opt : Opt) (padIdx : Nat)
    (embedding : Option Matrix2) (normalizeEmb : Bool)
    (wordInit posInit nerInit : Matrix2) (layers0 : Layers) :
    Except InitError RnnDocReader :=
  match wordStage norm2 opt padIdx embedding normalizeEmb wordInit with
  | Except.error e => Except.error e
  | Except.ok we =>
    let posEmb : Option EmbTable :=
      if opt.pos then
        some ⟨if normalizeEmb then normalize_emb_ norm2 posInit else posInit, none, true⟩
      else none
    let nerEmb : Option EmbTable :=
      if opt.ner then
        some ⟨if normalizeEmb then normalize_emb_ norm2 nerInit else nerInit, none, true⟩
      else none
    if opt.rnn_type ∈ RNN_TYPES then
      if opt.reduction_ratio = 0 then Except.error InitError.zeroReductionRatio
      else if opt.question_merge = "avg" ∨ opt.question_merge = "self_attn" then
        Except.ok { opt := opt, wordEmb := we.1, posEmb := posEmb, nerEmb := nerEmb,
                    fixedEmbedding := we.2, layers := layers0 }
      else Except.error InitError.unsupportedQuestionMerge
    else Except.error InitError.unknownRnnType

/-- The embedding stage of `forward` (source lines 142-150): look the
document and question word indices up in the word table and, when
`dropout_emb > 0`, apply dropout with `training = self.training`.  `rng`
supplies the random masks the tensor library would draw; call sites are
numbered 0 (document words), 1 (question words), 2 (POS), 3 (NER). -/
def RnnDocReader.embStage (M : RnnDocReader) (training : Bool)
    (rng : Nat → Tensor3) (x1 x2 : List (List Nat)) : Tensor3 × Tensor3 :=
  let x1_emb := embLookup M.wordEmb.table x1
  let x2_emb := embLookup M.wordEmb.table x2
  let x1_emb := if 0 < M.opt.dropout_emb then
      dropout3 M.opt.dropout_emb training (rng 0) x1_emb else x1_emb
  let x2_emb := if 0 < M.opt.dropout_emb then
      dropout3 M.opt.dropout_emb training (rng 1) x2_emb else x2_emb
  (x1_emb, x2_emb)

/-- The POS component of the document-encoder input (source lines 157-162):
lookup in `pos_embedding` followed by the optional dropout. -/
def RnnDocReader.posComponent (M : RnnDocReader) (training : Bool)
    (rng : Nat → Tensor3) (x1_pos : List (List Nat)) : Tensor3 :=
  let e := embLookup ((M.posEmb.map EmbTable.table).getD []) x1_pos
  if 0 < M.opt.dropout_emb then dropout3 M.opt.dropout_emb training (rng 2) e else e

/-- The NER component of the document-encoder input (source lines 163-168). -/
def RnnDocReader.nerComponent (M : RnnDocReader) (training : Bool)
    (rng : Nat → Tensor3) (x1_ner : List (List Nat)) : Tensor3 :=
  let e := embLookup ((M.nerEmb.map EmbTable.table).getD []) x1_ner
  if 0 < M.opt.dropout_emb then dropout3 M.opt.dropout_emb training (rng 3) e else e

/-- `drnn_input_list` as assembled in `forward` (source lines 152-168):
word embedding and manual features always, then the question-attended
embedding, the POS embedding and the NER embedding, each only when its
configuration flag is set. -/
def RnnDocReader.drnnInputList (M : RnnDocReader) (training : Bool)
    (rng : Nat → Tensor3) (x1 : List (List Nat)) (x1_f : Tensor3)
    (x1_pos x1_ner : List (List Nat)) (x2 : List (List Nat))
    (x2_mask : Mask2) : List Tensor3 :=
  let e := M.embStage training rng x1 x2
  let l := [e.1, x1_f]
  let l := if M.opt.use_qemb then l ++ [M.layers.qemb_match e.1 e.2 x2_mask] else l
  let l := if M.opt.pos then l ++ [M.posComponent training rng x1_pos] else l
  let l := if M.opt.ner then l ++ [M.nerComponent training rng x1_ner] else l
  l

/-- `RnnDocReader.forward` (source lines 132-214), returning the pair of
score tensors together with the module state after the call; the body
performs no in-place update on any parameter, so the returned state is the
input state.  The encoder and attention sub-modules come from `M.layers`. -/
def RnnDocReader.forwardM (M : RnnDocReader) (training : Bool)
    (rng : Nat → Tensor3) (x1 : List (List Nat)) (x1_f : Tensor3)
    (x1_pos x1_ner : List (List Nat)) (x1_mask : Mask2)
    (x2 : List (List Nat)) (x2_mask : Mask2) :
    (Matrix2 × Matrix2) × RnnDocReader :=
  let e := M.embStage training rng x1 x2
  let drnn_input := cat2 (M.drnnInputList training rng x1 x1_f x1_pos x1_ner x2 x2_mask)
  let doc_hiddens := M.layers.doc_rnn training drnn_input x1_mask
  let doc_hiddens := conv1by1 M.layers.docConvWeight M.layers.docConvBias doc_hiddens
  let doc_merge_weights := M.layers.doc_self_attn doc_hiddens x1_mask
  let doc_hiddens_compact := bmm (transpose12 doc_merge_weights) doc_hiddens
  let question_hiddens := M.layers.question_rnn training e.2 x2_mask
  let question_hiddens :=
    conv1by1 M.layers.questionConvWeight M.layers.questionConvBias question_hiddens
  let q_merge_weights :=
    if M.opt.question_merge = "avg" then uniform_weights question_hiddens x2_mask
    else M.layers.self_attn question_hiddens x2_mask
  let question_hidden := weighted_avg question_hiddens q_merge_weights
  let doc_question_hidden := M.layers.relationNet doc_hiddens_compact question_hidden
  let start_scores := M.layers.start_attn doc_hiddens doc_question_hidden x1_mask
  let end_scores := M.layers.end_attn doc_hiddens doc_question_hidden x1_mask
  ((start_scores, end_scores), M)

/-- The value returned by `RnnDocReader.forward`: the pair
`(start_scores, end_scores)`. -/
def RnnDocReader.forward (M : RnnDocReader) (training : Bool)
    (rng : Nat → Tensor3) (x1 : List (List Nat)) (x1_f : Tensor3)
    (x1_pos x1_ner : List (List Nat)) (x1_mask : Mask2)
    (x2 : List (List Nat)) (x2_mask : Mask2) : Matrix2 × Matrix2 :=
  (M.forwardM training rng x1 x1_f x1_pos x1_ner x1_mask x2 x2_mask).1

/-! ## Shape-level semantics

The shape a tensor would have at every stage of `forward`, with `none`
standing for the shape errors the tensor library would raise.  Layer shape
contracts for the absent `layers_RN` sub-modules are modelled from the
specification (section 4 and the data model of section 3). -/

abbrev Shape := List Nat

/-- Shape of an embedding lookup: `[B, L] → [B, L, dim]`. -/
def embLookupShape (dim : Nat) (s : Shape) : Option Shape :=
  match s with
  | [b, l] => some [b, l, dim]
  | _ => none

/-- Modelled from the spec: `SeqAttnMatch` produces, per document token, a
weighted sum of question embeddings, so `[B, Ld, E] × [B, Lq, E] × [B, Lq] →
[B, Ld, E]` where `E` is the `input_size` it was constructed with. -/
def seqAttnMatchShape (inputSize : Nat) (x y mask : Shape) : Option Shape :=
  match x, y, mask with
  | [b, ld, e], [b2, lq, e2], [b3, lq2] =>
    if b2 = b ∧ b3 = b ∧ e = inputSize ∧ e2 = inputSize ∧ lq2 = lq then
      some [b, ld, e2]
    else none
  | _, _, _ => none

/-- Shape of the concatenation of two tensors along axis 2: batch and length
must agree, channel widths add. -/
def catShape2 (a b : Shape) : Option Shape :=
  match a, b with
  | [b1, l1, w1], [b2, l2, w2] =>
    if b2 = b1 ∧ l2 = l1 then some [b1, l1, w1 + w2] else none
  | _, _ => none

/-- Helper for `catShape`. -/
def catShapeAux (acc : Shape) : List Shape → Option Shape
  | [] => some acc
  | s :: ss =>
    match catShape2 acc s with
    | none => none
    | some acc2 => catShapeAux acc2 ss

/-- Shape of `torch.cat(list, 2)`. -/
def catShape : List Shape → Option Shape
  | [] => none
  | s :: ss => catShapeAux s ss

/-- Modelled from the spec: a stacked bidirectional encoder maps
`[B, L, input_size] → [B, L, 2 * hidden]`, concatenating every layer's
output when `concat_layers` is set. -/
def stackedBRNNShape (inputSize hiddenSize numLayers : Nat) (concat : Bool)
    (x mask : Shape) : Option Shape :=
  match x, mask with
  | [b, l, i], [b2, l2] =>
    if b2 = b ∧ l2 = l ∧ i = inputSize then
      some [b, l, if concat then 2 * hiddenSize * numLayers else 2 * hiddenSize]
    else none
  | _, _ => none

/-- Modelled from the spec: the 1-by-1 convolution is position-wise, so it
only rewrites the channel width: `[B, L, in] → [B, L, out]`. -/
def conv1by1Shape (inChannels outChannels : Nat) (x : Shape) : Option Shape :=
  match x with
  | [b, l, c] => if c = inChannels then some [b, l, outChannels] else none
  | _ => none

/-- Modelled from the spec: `doc_LinearSeqAttn` produces `output_size`
independent attention distributions over document positions (one per
object): `[B, L, input_size] → [B, L, output_size]`. -/
def docLinearSeqAttnShape (inputSize outputSize : Nat) (x mask : Shape) :
    Option Shape :=
  match x, mask with
  | [b, l, i], [b2, l2] =>
    if b2 = b ∧ l2 = l ∧ i = inputSize then some [b, l, outputSize] else none
  | _, _ => none

/-- Shape of `Tensor.transpose(1, 2)`. -/
def transposeShape (x : Shape) : Option Shape :=
  match x with
  | [b, n, m] => some [b, m, n]
  | _ => none

/-- Shape of `torch.bmm`. -/
def bmmShape (x y : Shape) : Option Shape :=
  match x, y with
  | [b, n, m], [b2, m2, p] => if b2 = b ∧ m2 = m then some [b, n, p] else none
  | _, _ => none

/-- Modelled from the spec: `LinearSeqAttn` produces one attention
distribution over question positions: `[B, L, input_size] → [B, L]`. -/
def linearSeqAttnShape (inputSize : Nat) (x mask : Shape) : Option Shape :=
  match x, mask with
  | [b, l, i], [b2, l2] =>
    if b2 = b ∧ l2 = l ∧ i = inputSize then some [b, l] else none
  | _, _ => none

/-- Modelled from the spec: `uniform_weights` gives one weight per
position: `[B, L, _] → [B, L]`. -/
def uniformWeightsShape (x mask : Shape) : Option Shape :=
  match x, mask with
  | [b, l, _], [b2, l2] => if b2 = b ∧ l2 = l then some [b, l] else none
  | _, _ => none

/-- Modelled from the spec: `weighted_avg` pools the sequence into one
vector per batch element: `[B, L, R] × [B, L] → [B, R]`. -/
def weightedAvgShape (x w : Shape) : Option Shape :=
  match x, w with
  | [b, l, r], [b2, l2] => if b2 = b ∧ l2 = l then some [b, r] else none
  | _, _ => none

/-- Modelled from the spec: the relation network concatenates every pair of
object vectors with the broadcast question summary (width `2R + R'`, which
must equal the `hidden_size` of its shared feed-forward transform) and
produces one fused vector per object: `[B, O, R] × [B, R'] →
[B, O, output_size]`. -/
def relationNetShape (hiddenSize outputSize : Nat) (x q : Shape) :
    Option Shape :=
  match x, q with
  | [b, o, r], [b2, r2] =>
    if b2 = b ∧ 2 * r + r2 = hiddenSize then some [b, o, outputSize] else none
  | _, _ => none

/-- Modelled from the spec: the bilinear scorer produces one scalar logit
per document token (`[B, Ld]`), given document hiddens of width `x_size`
and a fused representation of width `y_size`. -/
def bilinearSeqAttnShape (xSize ySize : Nat) (x y mask : Shape) :
    Option Shape :=
  match x, y, mask with
  | [b, l, xs], [b2, _, ys], [b3, l2] =>
    if b2 = b ∧ b3 = b ∧ l2 = l ∧ xs = xSize ∧ ys = ySize then some [b, l]
    else none
  | _, _, _ => none

/-- Shape of `drnn_input` for a batch of `B` documents of length `Ld`,
questions of length `Lq` and a feature array of width `F`, mirroring the
assembly in `forward` (source lines 152-169). -/
def drnnInputShape (opt : Opt) (B Ld Lq F : Nat) : Option Shape := do
  let x1e ← embLookupShape opt.embedding_dim [B, Ld]
  let x2e ← embLookupShape opt.embedding_dim [B, Lq]
  let comps := [x1e, [B, Ld, F]]
  let comps ←
    if opt.use_qemb then do
      let q ← seqAttnMatchShape opt.embedding_dim x1e x2e [B, Lq]
      pure (comps ++ [q])
    else pure comps
  let comps ←
    if opt.pos then do
      let p ← embLookupShape opt.pos_dim [B, Ld]
      pure (comps ++ [p])
    else pure comps
  let comps ←
    if opt.ner then do
      let n ← embLookupShape opt.ner_dim [B, Ld]
      pure (comps ++ [n])
    else pure comps
  catShape comps

/-- Shape of `doc_hiddens` after the document encoder and the 1-by-1
dimensionality reduction (source lines 172-175); the conv is constructed
with `in_channels = doc_hidden_size` and
`out_channels = doc_hidden_size // reduction_ratio` (source line 105). -/
def docHiddensShape (opt : Opt) (B Ld Lq F : Nat) : Option Shape := do
  let drnn ← drnnInputShape opt B Ld Lq F
  let dh ← stackedBRNNShape (docInputSize opt) opt.hidden_size opt.doc_layers
    opt.concat_rnn_layers drnn [B, Ld]
  conv1by1Shape (docHiddenSize opt) (docHiddenSize opt / opt.reduction_ratio) dh

/-- Shape of `doc_hiddens_compact` (source lines 181-186): the
`num_objects` attention distributions are transposed and `bmm`-ed with the
reduced document hiddens. -/
def docCompactShape (opt : Opt) (B Ld Lq F : Nat) : Option Shape := do
  let dh ← docHiddensShape opt B Ld Lq F
  let w ← docLinearSeqAttnShape (docHiddenSize opt / opt.reduction_ratio)
    opt.num_objects dh [B, Ld]
  let wT ← transposeShape w
  bmmShape wT dh

/-- Shape of `question_hidden` (source lines 191-200). -/
def questionSummaryShape (opt : Opt) (B Lq : Nat) : Option Shape := do
  let x2e ← embLookupShape opt.embedding_dim [B, Lq]
  let qh ← stackedBRNNShape opt.embedding_dim opt.hidden_size
    opt.question_layers opt.concat_rnn_layers x2e [B, Lq]
  let qh ← conv1by1Shape (questionHiddenSize opt)
    (questionHiddenSize opt / opt.reduction_ratio) qh
  let qw ←
    if opt.question_merge = "avg" then uniformWeightsShape qh [B, Lq]
    else linearSeqAttnShape (questionHiddenSize opt / opt.reduction_ratio) qh [B, Lq]
  weightedAvgShape qh qw

/-- Shapes of the pair returned by `forward`.  The relation network is
constructed with `hidden_size = 3 * doc_hidden_size // reduction_ratio` and
`output_size = doc_hidden_size // reduction_ratio` (source line 120), and
the two bilinear scorers with sizes `doc_hidden_size // reduction_ratio`
and `question_hidden_size // reduction_ratio` (source lines 123-130). -/
def forwardShape (opt : Opt) (B Ld Lq F : Nat) : Option (Shape × Shape) := do
  let dh ← docHiddensShape opt B Ld Lq F
  let compact ← docCompactShape opt B Ld Lq F
  let qvec ← questionSummaryShape opt B Lq
  let fused ← relationNetShape (3 * docHiddenSize opt / opt.reduction_ratio)
    (docHiddenSize opt / opt.reduction_ratio) compact qvec
  let s ← bilinearSeqAttnShape (docHiddenSize opt / opt.reduction_ratio)
    (questionHiddenSize opt / opt.reduction_ratio) dh fused [B, Ld]
  let e ← bilinearSeqAttnShape (docHiddenSize opt / opt.reduction_ratio)
    (questionHiddenSize opt / opt.reduction_ratio) dh fused [B, Ld]
  pure (s, e)

/-- A configuration the constructor accepts and whose widths satisfy the
spec's data-model invariants: recognized `rnn_type` and `question_merge`, a
positive reduction ratio that evenly divides the encoder output width, and
equal document and question encoder widths. -/
def ValidOpt (opt : Opt) : Prop :=
  opt.rnn_type ∈ RNN_TYPES ∧
  (opt.question_merge = "avg" ∨ opt.question_merge = "self_attn") ∧
  0 < opt.reduction_ratio ∧
  opt.reduction_ratio ∣ docHiddenSize opt ∧
  questionHiddenSize opt = docHiddenSize opt

instance (opt : Opt) : Decidable (ValidOpt opt) := by
  unfold ValidOpt; infer_instance

/-! ## Concrete instances used by witnesses and counterexamples -/

/-- Access to the channel vector at batch `bi`, position `pi` of a tensor. -/
def posAt (t : Tensor3) (bi pi : Nat) : Option Vec :=
  (t[bi]?).bind (fun s => s[pi]?)

/-- A concrete stand-in for the library's row-norm function. -/
def n0 : Vec → ℚ := fun _ => 0

/-- A concrete instantiation of the `layers_RN` sub-modules. -/
def trivialLayers : Layers where
  qemb_match := fun _ _ _ => []
  doc_rnn := fun _ x _ => x
  question_rnn := fun _ x _ => x
  docConvWeight := [[1]]
  docConvBias := [0]
  questionConvWeight := [[1]]
  questionConvBias := [0]
  doc_self_attn := fun x _ => x
  self_attn := fun _ _ => []
  relationNet := fun d _ => d
  start_attn := fun _ f _ => f.map (fun ob => ob.map (fun r => r.sum))
  end_attn := fun _ f _ => f.map (fun ob => ob.map (fun r => r.sum))

/-- A small baseline configuration. -/
def baseOpt : Opt where
  pretrained_words := false
  fix_embeddings := false
  tunePartial := 0
  vocab_size := 2
  embedding_dim := 1
  pos := false
  pos_size := 2
  pos_dim := 1
  ner := false
  ner_size := 2
  ner_dim := 1
  use_qemb := false
  num_features := 0
  hidden_size := 1
  doc_layers := 1
  question_layers := 1
  dropout_rnn := 0
  dropout_rnn_output := false
  dropout_emb := 0
  concat_rnn_layers := false
  rnn_type := "lstm"
  rnn_padding := false
  num_objects := 1
  reduction_ratio := 1
  question_merge := "avg"

/-- A configuration with all optional features enabled. -/
def optC1 : Opt :=
  { baseOpt with embedding_dim := 5, use_qemb := true, pos := true, pos_dim := 2,
                 ner := true, ner_dim := 2, num_features := 3, hidden_size := 4,
                 reduction_ratio := 2, num_objects := 2 }

/-- `fix_embeddings` and a positive tuning threshold, without pretrained
words. -/
def optC2 : Opt := { baseOpt with fix_embeddings := true, tunePartial := 1 }

/-- `fix_embeddings` and a positive tuning threshold, with pretrained
words. -/
def optC2w : Opt :=
  { baseOpt with pretrained_words := true, fix_embeddings := true, tunePartial := 1 }

/-- An unrecognized question-merge policy. -/
def optC3 : Opt := { baseOpt with question_merge := "max" }

/-- A positive embedding-dropout probability. -/
def optC4 : Opt := { baseOpt with dropout_emb := 1 / 2 }

/-- Encoder width 6 with reduction ratio 4 (not an even division). -/
def optC5 : Opt := { baseOpt with hidden_size := 3, reduction_ratio := 4 }

/-- POS features enabled. -/
def optC8 : Opt := { baseOpt with pos := true }

/-- Pretrained words plus POS and NER features. -/
def optC9 : Opt := { baseOpt with pretrained_words := true, pos := true, ner := true }

/-- Pretrained words with a positive tuning threshold. -/
def optC10 : Opt := { baseOpt with pretrained_words := true, tunePartial := 1 }

/-- A dropout-mask source that always keeps every entry. -/
def rngOnes : Nat → Tensor3 := fun _ => [[[1]]]

/-- A dropout-mask source that zeroes the mask of the first call site. -/
def rngZeroFirst : Nat → Tensor3 := fun i => if i = 0 then [[[0]]] else [[[1]]]

/-- The module built from `optC4`. -/
def MC4 : RnnDocReader where
  opt := optC4
  wordEmb := ⟨[[0], [1]], some 0, true⟩
  posEmb := none
  nerEmb := none
  fixedEmbedding := none
  layers := trivialLayers

/-- The module `RnnDocReader.init` builds from `optC8`. -/
def Mc8 : RnnDocReader where
  opt := optC8
  wordEmb := ⟨[[5]], some 0, true⟩
  posEmb := some ⟨[[7]], none, true⟩
  nerEmb := none
  fixedEmbedding := none
  layers := trivialLayers

/-- The module `RnnDocReader.init` builds from `optC9` with normalization. -/
def Mc9 : RnnDocReader where
  opt := optC9
  wordEmb := ⟨normalize_emb_ n0 [[2]], some 0, true⟩
  posEmb := some ⟨normalize_emb_ n0 [[7]], none, true⟩
  nerEmb := some ⟨normalize_emb_ n0 [[9]], none, true⟩
  fixedEmbedding := none
  layers := trivialLayers

/-- The module `RnnDocReader.init` builds from `optC10`. -/
def Mc10 : RnnDocReader where
  opt := optC10
  wordEmb := ⟨[[1], [2], [3], [4]], some 0, true⟩
  posEmb := none
  nerEmb := none
  fixedEmbedding := some [[4]]
  layers := trivialLayers

/-! ## Helper lemmas -/

/-- Inversion for a successful construction: the word stage succeeded and
the state records exactly what `__init__` stores. -/
theorem init_ok {norm2 : Vec → ℚ} {opt : Opt} {padIdx : Nat}
    {embedding : Option Matrix2} {nrm : Bool} {wI pI nI : Matrix2} {L : Layers}
    {M : RnnDocReader}
    (h : RnnDocReader.init norm2 opt padIdx embedding nrm wI pI nI L = Except.ok M) :
    ∃ wf, wordStage norm2 opt padIdx embedding nrm wI = Except.ok wf ∧
      M = { opt := opt, wordEmb := wf.1,
            posEmb := if opt.pos then
                some ⟨if nrm then normalize_emb_ norm2 pI else pI, none, true⟩
              else none,
            nerEmb := if opt.ner then
                some ⟨if nrm then normalize_emb_ norm2 nI else nI, none, true⟩
              else none,
            fixedEmbedding := wf.2, layers := L } := by
  unfold RnnDocReader.init at h
  cases hws : wordStage norm2 opt padIdx embedding nrm wI with
  | error e => rw [hws] at h; exact absurd h (by simp)
  | ok wf =>
    rw [hws] at h
    refine ⟨wf, rfl, ?_⟩
    simp only [] at h
    split_ifs at h <;> simp_all

/-- Every successful word stage stores `padding_idx` on the word table. -/
theorem wordStage_padding {norm2 : Vec → ℚ} {opt : Opt} {padIdx : Nat}
    {embedding : Option Matrix2} {nrm : Bool} {wI : Matrix2}
    {wf : EmbTable × Option Matrix2}
    (h : wordStage norm2 opt padIdx embedding nrm wI = Except.ok wf) :
    wf.1.paddingIdx = some padIdx := by
  unfold wordStage at h
  cases hp : opt.pretrained_words with
  | false => simp [hp] at h; simp [← h]
  | true =>
    cases embedding with
    | none => simp [hp] at h
    | some m =>
      simp only [hp, if_true] at h
      split_ifs at h <;> simp_all <;> simp [← h]

/-- The row at the padding index is untouched by `gradRows`. -/
theorem gradRows_padding (pidx : Nat) (lr : ℚ) (grads : Matrix2) :
    ∀ (rows : Matrix2) (base k : Nat), base + k = pidx →
      (gradRows (some pidx) lr grads base rows)[k]? = rows[k]? := by
  intro rows
  induction rows with
  | nil => intro base k _; simp [gradRows]
  | cons row rest ih =>
    intro base k hk
    cases k with
    | zero =>
      have hb : pidx = base := by omega
      subst hb
      simp [gradRows]
    | succ k =>
      simp only [gradRows, List.getElem?_cons_succ]
      exact ih (base + 1) k (by omega)

/-- The channel vector of `conv1by1` at one position is the affine image of
the input's channel vector at the same position. -/
theorem conv1by1_posAt (w : Matrix2) (b : Vec) (x : Tensor3) (bi pidx : Nat) :
    posAt (conv1by1 w b x) bi pidx =
      (posAt x bi pidx).map (fun v => vecAdd (matVec w v) b) := by
  unfold posAt conv1by1
  rw [List.getElem?_map]
  cases x[bi]? with
  | none => simp
  | some s => simp [List.getElem?_map]

/-- Reduction of `Option.bind` on a present value. -/
theorem bindOpt_some {α β : Type} (a : α) (f : α → Option β) :
    (some a : Option α) >>= f = f a := rfl

/-- `pure` on `Option` is `some`. -/
theorem pureOpt {α : Type} (a : α) : (pure a : Option α) = some a := rfl

/-- `embLookupShape` on a two-dimensional index shape. -/
theorem embLookupShape_eq (dim b l : Nat) :
    embLookupShape dim [b, l] = some [b, l, dim] := rfl

/-- `seqAttnMatchShape` on matching shapes. -/
theorem seqAttnMatchShape_eq (i b ld lq : Nat) :
    seqAttnMatchShape i [b, ld, i] [b, lq, i] [b, lq] = some [b, ld, i] := by
  simp [seqAttnMatchShape]

/-- `catShape2` on matching shapes. -/
theorem catShape2_eq (b l w1 w2 : Nat) :
    catShape2 [b, l, w1] [b, l, w2] = some [b, l, w1 + w2] := by
  simp [catShape2]

/-- `stackedBRNNShape` on matching shapes. -/
theorem stackedBRNNShape_eq (i h n : Nat) (c : Bool) (b l : Nat) :
    stackedBRNNShape i h n c [b, l, i] [b, l] =
      some [b, l, if c then 2 * h * n else 2 * h] := by
  simp [stackedBRNNShape]

/-- `conv1by1Shape` on a matching shape. -/
theorem conv1by1Shape_eq (ic oc b l : Nat) :
    conv1by1Shape ic oc [b, l, ic] = some [b, l, oc] := by
  simp [conv1by1Shape]

/-- `docLinearSeqAttnShape` on matching shapes. -/
theorem docLinearSeqAttnShape_eq (i o b l : Nat) :
    docLinearSeqAttnShape i o [b, l, i] [b, l] = some [b, l, o] := by
  simp [docLinearSeqAttnShape]

/-- `transposeShape` on a three-dimensional shape. -/
theorem transposeShape_eq (b n m : Nat) :
    transposeShape [b, n, m] = some [b, m, n] := rfl

/-- `bmmShape` on matching shapes. -/
theorem bmmShape_eq (b n m p : Nat) :
    bmmShape [b, n, m] [b, m, p] = some [b, n, p] := by
  simp [bmmShape]

/-- `linearSeqAttnShape` on matching shapes. -/
theorem linearSeqAttnShape_eq (i b l : Nat) :
    linearSeqAttnShape i [b, l, i] [b, l] = some [b, l] := by
  simp [linearSeqAttnShape]

/-- `uniformWeightsShape` on matching shapes. -/
theorem uniformWeightsShape_eq (b l w : Nat) :
    uniformWeightsShape [b, l, w] [b, l] = some [b, l] := by
  simp [uniformWeightsShape]

/-- `weightedAvgShape` on matching shapes. -/
theorem weightedAvgShape_eq (b l r : Nat) :
    weightedAvgShape [b, l, r] [b, l] = some [b, r] := by
  simp [weightedAvgShape]

/-- `drnn_input` always assembles to `[B, Ld, doc_input_size]`: the widths
summed in `forward` match the `doc_input_size` computed in `__init__`. -/
theorem drnnInputShape_eval (opt : Opt) (B Ld Lq : Nat) :
    drnnInputShape opt B Ld Lq opt.num_features = some [B, Ld, docInputSize opt] := by
  by_cases hq : opt.use_qemb <;> by_cases hp : opt.pos <;> by_cases hn : opt.ner <;>
    simp only [drnnInputShape, embLookupShape_eq, seqAttnMatchShape_eq, bindOpt_some,
      pureOpt, hq, hp, hn, if_true, if_false, catShape, catShapeAux, catShape2_eq,
      List.cons_append, List.nil_append, docInputSize, ite_true, ite_false,
      Nat.add_zero] <;> rfl

/-- The document encoder plus 1-by-1 reduction always produce
`[B, Ld, doc_hidden_size // reduction_ratio]`. -/
theorem docHiddensShape_eval (opt : Opt) (B Ld Lq : Nat) :
    docHiddensShape opt B Ld Lq opt.num_features =
      some [B, Ld, docHiddenSize opt / opt.reduction_ratio] := by
  simp only [docHiddensShape, drnnInputShape_eval, bindOpt_some, docHiddenSize,
    stackedBRNNShape_eq, conv1by1Shape_eq]

/-- The document self-attention pooling always produces
`[B, num_objects, doc_hidden_size // reduction_ratio]`. -/
theorem docCompactShape_eval (opt : Opt) (B Ld Lq : Nat) :
    docCompactShape opt B Ld Lq opt.num_features =
      some [B, opt.num_objects, docHiddenSize opt / opt.reduction_ratio] := by
  simp only [docCompactShape, docHiddensShape_eval, bindOpt_some,
    docLinearSeqAttnShape_eq, transposeShape_eq, bmmShape_eq]

/-- For either recognized merge policy the question summary is
`[B, question_hidden_size // reduction_ratio]`. -/
theorem questionSummaryShape_eval (opt : Opt) (B Lq : Nat)
    (hqm : opt.question_merge = "avg" ∨ opt.question_merge = "self_attn") :
    questionSummaryShape opt B Lq =
      some [B, questionHiddenSize opt / opt.reduction_ratio] := by
  rcases hqm with h | h <;>
    simp only [questionSummaryShape, embLookupShape_eq, bindOpt_some,
      questionHiddenSize, stackedBRNNShape_eq, conv1by1Shape_eq, h,
      uniformWeightsShape_eq, linearSeqAttnShape_eq, weightedAvgShape_eq,
      ite_true, ite_false, if_true, if_false, reduceIte, ite_self]

/-! ## Claims -/

/-- C1: for every valid configuration and every well-shaped input batch,
`RnnDocReader.forward` returns a pair (start logits, end logits) whose
shapes are both `[batch size, document length]`, independent of
`hidden_size`, `reduction_ratio`, and `num_objects` (the result shape does
not mention them, whatever their values). -/
theorem claim_C1 (opt : Opt) (B Ld Lq : Nat) (h : ValidOpt opt) :
    forwardShape opt B Ld Lq opt.num_features = some ([B, Ld], [B, Ld]) := by
  obtain ⟨hrnn, hqm, hr, hdvd, hqh⟩ := h
  have h3 : 3 * docHiddenSize opt / opt.reduction_ratio
      = 3 * (docHiddenSize opt / opt.reduction_ratio) := Nat.mul_div_assoc 3 hdvd
  have harith : 2 * (docHiddenSize opt / opt.reduction_ratio)
      + docHiddenSize opt / opt.reduction_ratio
      = 3 * (docHiddenSize opt / opt.reduction_ratio) := by ring
  have hrel : relationNetShape (3 * docHiddenSize opt / opt.reduction_ratio)
      (docHiddenSize opt / opt.reduction_ratio)
      [B, opt.num_objects, docHiddenSize opt / opt.reduction_ratio]
      [B, questionHiddenSize opt / opt.reduction_ratio]
      = some [B, opt.num_objects, docHiddenSize opt / opt.reduction_ratio] := by
    simp [relationNetShape, hqh, h3, harith]
  have hbil : bilinearSeqAttnShape (docHiddenSize opt / opt.reduction_ratio)
      (questionHiddenSize opt / opt.reduction_ratio)
      [B, Ld, docHiddenSize opt / opt.reduction_ratio]
      [B, opt.num_objects, docHiddenSize opt / opt.reduction_ratio] [B, Ld]
      = some [B, Ld] := by
    simp [bilinearSeqAttnShape, hqh]
  simp only [forwardShape, docHiddensShape_eval, docCompactShape_eval,
    questionSummaryShape_eval opt B Lq hqm, bindOpt_some, hrel, hbil, pureOpt]

/-- Witness for C1 on the end-to-end scenario of the spec: batch 2,
document length 5, question length 3. -/
theorem claim_C1_witness :
    ValidOpt optC1 ∧
      forwardShape optC1 2 5 3 optC1.num_features = some ([2, 5], [2, 5]) :=
  ⟨by decide, claim_C1 optC1 2 5 3 (by decide)⟩

/-- C7: for every document length `Ld`, the document self-attention pooling
stage produces exactly `num_objects` object summary vectors per batch
element — shape `[B, num_objects, reduced width]` — with the object count
taken from the fixed hyperparameter, never from `Ld`. -/
theorem claim_C7 (opt : Opt) (B Ld Lq : Nat) :
    docCompactShape opt B Ld Lq opt.num_features =
      some [B, opt.num_objects, docHiddenSize opt / opt.reduction_ratio] :=
  docCompactShape_eval opt B Ld Lq

/-- C2 counterexample: with `fix_embeddings = true` and `tune_partial = 1`
but `pretrained_words = false`, construction succeeds — the claim that every
such configuration fails at construction is false, because the
`assert opt['tune_partial'] == 0` sits inside the
`if opt['pretrained_words']` branch. -/
theorem claim_C2_counterexample :
    optC2.fix_embeddings = true ∧ 0 < optC2.tunePartial ∧
      (RnnDocReader.init n0 optC2 0 none false [[1]] [] [] trivialLayers).toOption.isSome
        = true :=
  ⟨rfl, by decide, by decide⟩

/-- C2 (amended): for every configuration with `pretrained_words = true`,
`fix_embeddings = true` and `tune_partial > 0`, construction fails
immediately with a configuration error (the missing-embedding assert if no
pretrained matrix is supplied, otherwise the `tune_partial == 0` assert). -/
theorem claim_C2_amended (norm2 : Vec → ℚ) (opt : Opt) (padIdx : Nat)
    (embedding : Option Matrix2) (nrm : Bool) (wI pI nI : Matrix2) (L : Layers)
    (hp : opt.pretrained_words = true) (hf : opt.fix_embeddings = true)
    (ht : 0 < opt.tunePartial) :
    RnnDocReader.init norm2 opt padIdx embedding nrm wI pI nI L =
      Except.error (match embedding with
        | none => InitError.embeddingMissing
        | some _ => InitError.fixTuneConflict) := by
  have ht' : ¬ opt.tunePartial = 0 := by omega
  cases embedding with
  | none => simp [RnnDocReader.init, wordStage, hp]
  | some m => simp [RnnDocReader.init, wordStage, hp, hf, ht']

/-- Witness for C2 (amended) at a concrete configuration. -/
theorem claim_C2_witness :
    RnnDocReader.init n0 optC2w 0 (some [[1], [2]]) false [] [] [] trivialLayers =
      Except.error InitError.fixTuneConflict :=
  claim_C2_amended n0 optC2w 0 (some [[1], [2]]) false [] [] [] trivialLayers rfl rfl
    (by decide)

/-- C3: provided the word-embedding stage succeeds, the `rnn_type` lookup
succeeds and the reduction ratio is non-zero (the construction steps the
source runs first), construction raises the unsupported-configuration error
exactly when `question_merge` is not one of the two recognized policies, and
succeeds for the two recognized values. -/
theorem claim_C3 (norm2 : Vec → ℚ) (opt : Opt) (padIdx : Nat)
    (embedding : Option Matrix2) (nrm : Bool) (wI pI nI : Matrix2) (L : Layers)
    (wf : EmbTable × Option Matrix2)
    (hw : wordStage norm2 opt padIdx embedding nrm wI = Except.ok wf)
    (hr : opt.rnn_type ∈ RNN_TYPES) (hz : opt.reduction_ratio ≠ 0) :
    (¬ (opt.question_merge = "avg" ∨ opt.question_merge = "self_attn") →
      RnnDocReader.init norm2 opt padIdx embedding nrm wI pI nI L =
        Except.error InitError.unsupportedQuestionMerge) ∧
    ((opt.question_merge = "avg" ∨ opt.question_merge = "self_attn") →
      ∃ M, RnnDocReader.init norm2 opt padIdx embedding nrm wI pI nI L =
        Except.ok M) := by
  constructor
  · intro h
    simp [RnnDocReader.init, hw, hr, hz, h]
  · intro h
    exact ⟨_, by simp [RnnDocReader.init, hw, hr, hz, h]; rfl⟩

/-- Witness for C3: an unrecognized policy (`"max"`) is rejected with the
unsupported-configuration error. -/
theorem claim_C3_witness :
    RnnDocReader.init n0 optC3 0 none false [[1]] [] [] trivialLayers =
      Except.error InitError.unsupportedQuestionMerge :=
  (claim_C3 n0 optC3 0 none false [[1]] [] [] trivialLayers
      (⟨[[1]], some 0, true⟩, none) rfl (by decide) (by decide)).1 (by decide)

/-- C10: with pretrained words, `fix_embeddings = false` and
`tune_partial > 0`, construction fails unless `tune_partial + 2` is
strictly below the number of pretrained rows, and on success the recorded
fixed block is exactly the rows from index `tune_partial + 2` on. -/
theorem claim_C10 (norm2 : Vec → ℚ) (opt : Opt) (padIdx : Nat) (m : Matrix2)
    (nrm : Bool) (wI pI nI : Matrix2) (L : Layers)
    (hp : opt.pretrained_words = true) (hf : opt.fix_embeddings = false)
    (ht : 0 < opt.tunePartial) :
    (¬ (opt.tunePartial + 2 < m.length) →
      RnnDocReader.init norm2 opt padIdx (some m) nrm wI pI nI L =
        Except.error InitError.tunePartialTooBig) ∧
    (∀ M, RnnDocReader.init norm2 opt padIdx (some m) nrm wI pI nI L =
        Except.ok M →
      M.fixedEmbedding =
        some ((if nrm then normalize_emb_ norm2 m else m).drop
          (opt.tunePartial + 2))) := by
  have hlen : (if nrm then normalize_emb_ norm2 m else m).length = m.length := by
    cases nrm <;> simp [normalize_emb_]
  constructor
  · intro h
    have h' : ¬ (opt.tunePartial + 2 <
        (if nrm then normalize_emb_ norm2 m else m).length) := by
      rw [hlen]; exact h
    simp [RnnDocReader.init, wordStage, hp, hf, ht, h']
  · intro M hM
    by_cases hlt : opt.tunePartial + 2 < m.length
    · obtain ⟨wf, hws, hMe⟩ := init_ok hM
      have hlt' : opt.tunePartial + 2 <
          (if nrm then normalize_emb_ norm2 m else m).length := by
        rw [hlen]; exact hlt
      have hpair : wordStage norm2 opt padIdx (some m) nrm wI =
          Except.ok (⟨if nrm then normalize_emb_ norm2 m else m, some padIdx, true⟩,
            some ((if nrm then normalize_emb_ norm2 m else m).drop
              (opt.tunePartial + 2))) := by
        simp [wordStage, hp, hf, ht, hlt']
      rw [hpair] at hws
      have hwf := Except.ok.inj hws
      rw [hMe]
      show wf.2 = _
      rw [← hwf]
    · have h' : ¬ (opt.tunePartial + 2 <
          (if nrm then normalize_emb_ norm2 m else m).length) := by
        rw [hlen]; exact hlt
      have herr : RnnDocReader.init norm2 opt padIdx (some m) nrm wI pI nI L =
          Except.error InitError.tunePartialTooBig := by
        simp [RnnDocReader.init, wordStage, hp, hf, ht, h']
      rw [herr] at hM
      exact Except.noConfusion hM

/-- Witness for C10: with `tune_partial = 1`, a 3-row matrix is rejected
(`1 + 2 < 3` fails) and a 4-row matrix is accepted with `[[4]]` — the rows
from index 3 on — recorded as fixed. -/
theorem claim_C10_witness :
    RnnDocReader.init n0 optC10 0 (some [[1], [2], [3]]) false [] [] []
        trivialLayers = Except.error InitError.tunePartialTooBig ∧
      Mc10.fixedEmbedding = some [[4]] :=
  ⟨(claim_C10 n0 optC10 0 [[1], [2], [3]] false [] [] [] trivialLayers rfl rfl
      (by decide)).1 (by decide),
   (claim_C10 n0 optC10 0 [[1], [2], [3], [4]] false [[9]] [] [] trivialLayers rfl
      rfl (by decide)).2 Mc10 rfl⟩

/-- C8 counterexample: the POS embedding table is constructed without a
padding index (`nn.Embedding(opt['pos_size'], opt['pos_dim'])`, source line
53), so its row at the reserved padding index 0 does receive a gradient
update: starting from `[[7]]`, one step with gradient `[[1]]` and learning
rate 1 changes row 0 to `[6]`.  This falsifies the claim that every
embedding table of the model has a structurally fixed padding row. -/
theorem claim_C8_counterexample :
    (RnnDocReader.init n0 optC8 0 none false [[5]] [[7]] [] trivialLayers).toOption.map
        (fun s => s.posEmb.map
          (fun pe => (pe.paddingIdx, pe.table, (pe.gradStep 1 [[1]]).table)))
      = some (some (none, [[7]], [[6]])) := by
  norm_num [RnnDocReader.init, wordStage, optC8, baseOpt, Except.toOption,
    EmbTable.gradStep, gradRows, RNN_TYPES]
  decide

/-- C8 (amended): in every successfully constructed model the word
embedding table carries `padding_idx`, and its padding row is unchanged by
an optimizer step; the POS and NER tables, when present, are built without
a padding index. -/
theorem claim_C8_amended (norm2 : Vec → ℚ) (opt : Opt) (padIdx : Nat)
    (embedding : Option Matrix2) (nrm : Bool) (wI pI nI : Matrix2) (L : Layers)
    (M : RnnDocReader)
    (h : RnnDocReader.init norm2 opt padIdx embedding nrm wI pI nI L =
      Except.ok M) :
    M.wordEmb.paddingIdx = some padIdx ∧
    (∀ lr grads, ((M.wordEmb.gradStep lr grads).table)[padIdx]? =
      M.wordEmb.table[padIdx]?) ∧
    (∀ pe, M.posEmb = some pe → pe.paddingIdx = none) ∧
    (∀ ne, M.nerEmb = some ne → ne.paddingIdx = none) := by
  obtain ⟨wf, hws, hMe⟩ := init_ok h
  have hpad : M.wordEmb.paddingIdx = some padIdx := by
    rw [hMe]; exact wordStage_padding hws
  refine ⟨hpad, ?_, ?_, ?_⟩
  · intro lr grads
    unfold EmbTable.gradStep
    by_cases hg : M.wordEmb.requiresGrad
    · simp only [hg, if_true, hpad]
      exact gradRows_padding padIdx lr grads M.wordEmb.table 0 padIdx (by omega)
    · simp [hg]
  · intro pe hpe
    rw [hMe] at hpe
    by_cases hp : opt.pos
    · simp only [hp, if_true] at hpe
      cases hpe
      rfl
    · simp [hp] at hpe
  · intro ne hne
    rw [hMe] at hne
    by_cases hn : opt.ner
    · simp only [hn, if_true] at hne
      cases hne
      rfl
    · simp [hn] at hne

/-- Witness for C8 (amended) at a concrete model: the word table keeps
index 0 as padding and an optimizer step leaves its padding row alone. -/
theorem claim_C8_witness :
    Mc8.wordEmb.paddingIdx = some 0 ∧
      ((Mc8.wordEmb.gradStep 1 [[1]]).table)[0]? = Mc8.wordEmb.table[0]? :=
  ⟨(claim_C8_amended n0 optC8 0 none false [[5]] [[7]] [] trivialLayers Mc8 rfl).1,
   (claim_C8_amended n0 optC8 0 none false [[5]] [[7]] [] trivialLayers Mc8
      rfl).2.1 1 [[1]]⟩

/-- With normalization requested and pretrained words, every successful
word stage stores the normalized pretrained matrix. -/
theorem wordStage_table_pre {norm2 : Vec → ℚ} {opt : Opt} {padIdx : Nat}
    {m wI : Matrix2} {wf : EmbTable × Option Matrix2}
    (hp : opt.pretrained_words = true)
    (h : wordStage norm2 opt padIdx (some m) true wI = Except.ok wf) :
    wf.1.table = normalize_emb_ norm2 m := by
  unfold wordStage at h
  rw [hp] at h
  simp only [ite_true, if_true, reduceIte] at h
  split_ifs at h <;>
    first
      | exact Except.noConfusion h
      | exact (congrArg (fun p => (p.1).table) (Except.ok.inj h)).symm

/-- Without pretrained words the word stage stores the fresh random
matrix, not a normalized one. -/
theorem wordStage_table_rand {norm2 : Vec → ℚ} {opt : Opt} {padIdx : Nat}
    {embedding : Option Matrix2} {nrm : Bool} {wI : Matrix2}
    {wf : EmbTable × Option Matrix2}
    (hp : opt.pretrained_words = false)
    (h : wordStage norm2 opt padIdx embedding nrm wI = Except.ok wf) :
    wf.1.table = wI := by
  unfold wordStage at h
  rw [hp] at h
  simp only [Bool.false_eq_true, if_false, reduceIte] at h
  exact (congrArg (fun p => (p.1).table) (Except.ok.inj h)).symm

/-- C9: with `normalize_emb` set, construction stores each normalized
table exactly once — the pretrained word matrix and the POS/NER tables are
replaced by their row-normalized versions (each row divided by its own L2
norm plus `1e-8`), a randomly initialized word table is stored as is — and
`forward` returns the module state unchanged, so no table is ever
re-normalized by a forward call. -/
theorem claim_C9 (norm2 : Vec → ℚ) (opt : Opt) (padIdx : Nat) (m : Matrix2)
    (wI pI nI : Matrix2) (L : Layers) (M : RnnDocReader)
    (h : RnnDocReader.init norm2 opt padIdx (some m) true wI pI nI L =
      Except.ok M) :
    (opt.pretrained_words = true → M.wordEmb.table = normalize_emb_ norm2 m) ∧
    (opt.pretrained_words = false → M.wordEmb.table = wI) ∧
    (opt.pos = true → M.posEmb = some ⟨normalize_emb_ norm2 pI, none, true⟩) ∧
    (opt.ner = true → M.nerEmb = some ⟨normalize_emb_ norm2 nI, none, true⟩) ∧
    (∀ (d : Matrix2) (i : Nat), (normalize_emb_ norm2 d)[i]? =
      (d[i]?).map (fun row => row.map (fun v => v / (norm2 row + 1 / 100000000)))) ∧
    (∀ training rng x1 x1_f x1_pos x1_ner x1_mask x2 x2_mask,
      (M.forwardM training rng x1 x1_f x1_pos x1_ner x1_mask x2 x2_mask).2 = M) := by
  obtain ⟨wf, hws, hMe⟩ := init_ok h
  refine ⟨?_, ?_, ?_, ?_, ?_, ?_⟩
  · intro hp; rw [hMe]; exact wordStage_table_pre hp hws
  · intro hp; rw [hMe]; exact wordStage_table_rand hp hws
  · intro hp; rw [hMe]; simp [hp]
  · intro hn; rw [hMe]; simp [hn]
  · intro d i; simp [normalize_emb_, List.getElem?_map]
  · intro training rng x1 x1_f x1_pos x1_ner x1_mask x2 x2_mask; rfl

/-- Witness for C9 at a concrete construction: the stored tables are the
normalized ones, and the row `[2]` with (stand-in) norm 0 becomes
`[2 / (0 + 1e-8)] = [200000000]`. -/
theorem claim_C9_witness :
    Mc9.wordEmb.table = normalize_emb_ n0 [[2]] ∧
      Mc9.posEmb = some ⟨normalize_emb_ n0 [[7]], none, true⟩ ∧
      normalize_emb_ n0 [[2]] = [[200000000]] :=
  ⟨(claim_C9 n0 optC9 0 [[2]] [[5]] [[7]] [[9]] trivialLayers Mc9 rfl).1 rfl,
   (claim_C9 n0 optC9 0 [[2]] [[5]] [[7]] [[9]] trivialLayers Mc9 rfl).2.2.1 rfl,
   by norm_num [normalize_emb_, n0]⟩

/-- C4: in inference mode (`training = false`) with any positive embedding
dropout rate, two `forward` calls with identical inputs and parameters but
different library randomness return identical outputs (all dropout calls
are identities); in training mode such two-run equality is not guaranteed —
there is a model, an input and two randomness streams whose training-mode
outputs differ. -/
theorem claim_C4 (M : RnnDocReader) (rng1 rng2 : Nat → Tensor3)
    (x1 : List (List Nat)) (x1_f : Tensor3) (x1_pos x1_ner : List (List Nat))
    (x1_mask : Mask2) (x2 : List (List Nat)) (x2_mask : Mask2)
    (h : 0 < M.opt.dropout_emb) :
    M.forward false rng1 x1 x1_f x1_pos x1_ner x1_mask x2 x2_mask =
      M.forward false rng2 x1 x1_f x1_pos x1_ner x1_mask x2 x2_mask ∧
    ∃ (N : RnnDocReader) (rngA rngB : Nat → Tensor3) (y1 : List (List Nat))
      (y1_f : Tensor3) (y1_pos y1_ner : List (List Nat)) (y1_mask : Mask2)
      (y2 : List (List Nat)) (y2_mask : Mask2),
      0 < N.opt.dropout_emb ∧
      N.forward true rngA y1 y1_f y1_pos y1_ner y1_mask y2 y2_mask ≠
        N.forward true rngB y1 y1_f y1_pos y1_ner y1_mask y2 y2_mask := by
  refine ⟨rfl, MC4, rngOnes, rngZeroFirst, [[1]], [[[]]], [[]], [[]], [[false]],
    [[1]], [[false]], by norm_num [MC4, optC4, baseOpt], ?_⟩
  have hT2 : List.transpose [[(2 : ℚ)]] = [[2]] := rfl
  have hT0 : List.transpose [[(0 : ℚ)]] = [[0]] := rfl
  norm_num [RnnDocReader.forward, RnnDocReader.forwardM, RnnDocReader.embStage,
    RnnDocReader.drnnInputList, MC4, optC4, baseOpt, trivialLayers, embLookup,
    dropout3, cat2, cat2two, conv1by1, matVec, vecAdd, dot, bmm, matMul,
    transpose12, hT2, hT0, uniform_weights, weighted_avg, rngOnes, rngZeroFirst]

/-- Witness for C4 at a concrete model with dropout probability `1/2`:
inference-mode outputs agree under two different randomness streams. -/
theorem claim_C4_witness :
    (0 : ℚ) < MC4.opt.dropout_emb ∧
      MC4.forward false rngOnes [[1]] [[[]]] [[]] [[]] [[false]] [[1]] [[false]] =
        MC4.forward false rngZeroFirst [[1]] [[[]]] [[]] [[]] [[false]] [[1]]
          [[false]] :=
  ⟨by norm_num [MC4, optC4, baseOpt],
   (claim_C4 MC4 rngOnes rngZeroFirst [[1]] [[[]]] [[]] [[]] [[false]] [[1]]
      [[false]] (by norm_num [MC4, optC4, baseOpt])).1⟩

/-- C5 counterexample: with `hidden_size = 3` (encoder width 6) and
`reduction_ratio = 4`, construction succeeds, yet the reduced width
`6 // 4 = 1` does not satisfy `H = R * ratio` — the code enforces no even
division. -/
theorem claim_C5_counterexample :
    (RnnDocReader.init n0 optC5 0 none false [[1]] [] [] trivialLayers).toOption.isSome
        = true ∧
      docHiddenSize optC5 / optC5.reduction_ratio * optC5.reduction_ratio ≠
        docHiddenSize optC5 :=
  ⟨by decide, by decide⟩

/-- C5 (amended): the reduction stage maps width `H` to `H // ratio`
(floor division; `H = R * ratio` holds exactly when the ratio divides `H`),
via a learned affine map applied independently to every position — the
output at one position depends only on the input at that position. -/
theorem claim_C5_amended (opt : Opt) (w : Matrix2) (b : Vec)
    (hdvd : opt.reduction_ratio ∣ docHiddenSize opt) :
    docHiddenSize opt / opt.reduction_ratio * opt.reduction_ratio =
      docHiddenSize opt ∧
    (∀ B Ld Lq, docHiddensShape opt B Ld Lq opt.num_features =
      some [B, Ld, docHiddenSize opt / opt.reduction_ratio]) ∧
    (∀ x bi pidx, posAt (conv1by1 w b x) bi pidx =
      (posAt x bi pidx).map (fun v => vecAdd (matVec w v) b)) ∧
    (∀ x y bi pidx, posAt x bi pidx = posAt y bi pidx →
      posAt (conv1by1 w b x) bi pidx = posAt (conv1by1 w b y) bi pidx) := by
  refine ⟨Nat.div_mul_cancel hdvd, ?_, ?_, ?_⟩
  · intro B Ld Lq; exact docHiddensShape_eval opt B Ld Lq
  · intro x bi pidx; exact conv1by1_posAt w b x bi pidx
  · intro x y bi pidx hxy
    rw [conv1by1_posAt, conv1by1_posAt, hxy]

/-- Witness for C5 (amended) at a configuration whose ratio does divide the
encoder width (`2 ∣ 8`). -/
theorem claim_C5_witness :
    optC1.reduction_ratio ∣ docHiddenSize optC1 ∧
      docHiddenSize optC1 / optC1.reduction_ratio * optC1.reduction_ratio =
        docHiddenSize optC1 :=
  ⟨by decide, (claim_C5_amended optC1 [[1]] [0] (by decide)).1⟩

/-- C6: the document encoder's input is the concatenation of exactly the
enabled components in order — word embedding, feature array, then (iff
`use_qemb`) the question-attended embedding, (iff `pos`) the POS embedding,
(iff `ner`) the NER embedding; its width is
`embedding_dim + num_features (+ embedding_dim) (+ pos_dim) (+ ner_dim)`;
and the `x1_pos` / `x1_ner` arguments are ignored when their flag is off. -/
theorem claim_C6 (M : RnnDocReader) (training : Bool) (rng : Nat → Tensor3)
    (x1 : List (List Nat)) (x1_f : Tensor3) (x1_pos x1_ner : List (List Nat))
    (x1_mask : Mask2) (x2 : List (List Nat)) (x2_mask : Mask2) :
    (M.drnnInputList training rng x1 x1_f x1_pos x1_ner x2 x2_mask =
      [(M.embStage training rng x1 x2).1, x1_f]
        ++ (if M.opt.use_qemb then
              [M.layers.qemb_match (M.embStage training rng x1 x2).1
                (M.embStage training rng x1 x2).2 x2_mask]
            else [])
        ++ (if M.opt.pos then [M.posComponent training rng x1_pos] else [])
        ++ (if M.opt.ner then [M.nerComponent training rng x1_ner] else [])) ∧
    (∀ (opt : Opt) (B Ld Lq : Nat),
      drnnInputShape opt B Ld Lq opt.num_features =
        some [B, Ld, opt.embedding_dim + opt.num_features
          + (if opt.use_qemb then opt.embedding_dim else 0)
          + (if opt.pos then opt.pos_dim else 0)
          + (if opt.ner then opt.ner_dim else 0)]) ∧
    (M.opt.pos = false → ∀ p q : List (List Nat),
      M.forward training rng x1 x1_f p x1_ner x1_mask x2 x2_mask =
        M.forward training rng x1 x1_f q x1_ner x1_mask x2 x2_mask) ∧
    (M.opt.ner = false → ∀ p q : List (List Nat),
      M.forward training rng x1 x1_f x1_pos p x1_mask x2 x2_mask =
        M.forward training rng x1 x1_f x1_pos q x1_mask x2 x2_mask) := by
  refine ⟨?_, ?_, ?_, ?_⟩
  · by_cases hq : M.opt.use_qemb <;> by_cases hp : M.opt.pos <;>
      by_cases hn : M.opt.ner <;>
      simp [RnnDocReader.drnnInputList, hq, hp, hn]
  · intro opt B Ld Lq
    have h := drnnInputShape_eval opt B Ld Lq
    rwa [docInputSize] at h
  · intro hp p q
    simp [RnnDocReader.forward, RnnDocReader.forwardM, RnnDocReader.drnnInputList,
      hp]
  · intro hn p q
    simp [RnnDocReader.forward, RnnDocReader.forwardM, RnnDocReader.drnnInputList,
      hn]

/-- Witness for C6: on a model with `pos` disabled, two different POS index
arrays give the same output. -/
theorem claim_C6_witness :
    MC4.forward false rngOnes [[1]] [[[]]] [[0]] [[]] [[false]] [[1]] [[false]] =
      MC4.forward false rngOnes [[1]] [[[]]] [[1]] [[]] [[false]] [[1]] [[false]] :=
  (claim_C6 MC4 false rngOnes [[1]] [[[]]] [[0]] [[]] [[false]] [[1]]
    [[false]]).2.2.1 rfl [[0]] [[1]]
